import Mathlib

/-!
Shallow embedding of the `optimal-pick-assistant` repository core:
the recommendation engine (`src/backend/src/services/recommendation.service.ts`
and the variant service in `src/unnamed/part_001`), the stats aggregator
(`src/unnamed/part_001`), the TTL cache (`src/backend/src/config/config.ts`,
second module = cache.service), and the API controller validation
(`src/backend/src/controllers/api.controller.ts`).

JavaScript numbers are modelled as rationals (`ℚ`); timestamps as `ℤ`
(milliseconds, `Date.now()`); asynchronous data services as explicit
environment records; JS `null` and thrown-then-caught exceptions as `Option`.
-/

namespace OPA

/-- Role enum (`src/backend/src/types/index.ts`): the five fixed positions. -/
inductive Role
  | top
  | jungle
  | middle
  | bottom
  | utility
deriving DecidableEq, Repr, Inhabited

/-- A pick slot in the draft state: only the champion id is read by the core. -/
structure PlayerPick where
  championId : Int
deriving DecidableEq, Repr

/-- `ChampionSelectState`: the draft state read by `getRecommendations`. -/
structure ChampionSelectState where
  myRole : Option Role
  myTeam : List PlayerPick
  enemyTeam : List PlayerPick
  bannedChampions : List Int
deriving DecidableEq, Repr

/-- `RecommendationWeights`: four weight components. -/
structure RecommendationWeights where
  winRate : ℚ
  pickRate : ℚ
  counterScore : ℚ
  synergyScore : ℚ
deriving DecidableEq, Repr

/-- Sum of the four weight components (used to state normalization claims). -/
def weightsSum (w : RecommendationWeights) : ℚ :=
  w.winRate + w.pickRate + w.counterScore + w.synergyScore

/-- `config.defaultWeights` from `src/backend/src/config/config.ts`. -/
def defaultWeights : RecommendationWeights :=
  { winRate := 0.40, pickRate := 0.10, counterScore := 0.30, synergyScore := 0.20 }

/-- `config.dataService.minMatches` (30). -/
def configMinMatches : Nat := 30

/-- `config.features.enableCounterCalculation`. -/
def enableCounterCalculation : Bool := true

/-- `config.features.enableSynergyCalculation`. -/
def enableSynergyCalculation : Bool := true

/-- `ChampionStats` as produced by the aggregator and consumed by scoring. -/
structure ChampionStats where
  championId : Int
  role : Role
  winRate : ℚ
  pickRate : ℚ
  banRate : ℚ
  «matches» : Nat
  tier : String
  rank : Nat
deriving DecidableEq, Repr, Inhabited

/-- `Matchup`: champion-versus-opponent statistics. -/
structure Matchup where
  championId : Int
  opponentId : Int
  role : Role
  winRate : ℚ
  «matches» : Nat
deriving DecidableEq, Repr

/-- `Synergy`: champion-with-ally statistics. -/
structure Synergy where
  championId : Int
  allyId : Int
  role : Role
  winRate : ℚ
  «matches» : Nat
deriving DecidableEq, Repr

/-- The `breakdown` field of a `RecommendationScore`. -/
structure ScoreBreakdown where
  winRateScore : ℚ
  pickRateScore : ℚ
  counterScore : ℚ
  synergyScore : ℚ
deriving DecidableEq, Repr, Inhabited

/-- `RecommendationScore`: one ranked recommendation. -/
structure RecommendationScore where
  championId : Int
  championName : String
  role : Role
  totalScore : ℚ
  breakdown : ScoreBreakdown
  stats : ChampionStats
  reasoning : List String
deriving DecidableEq, Repr, Inhabited

/-- JS `x.toFixed(1)` on a non-negative number, used only inside reasoning
strings: round to one decimal and print. -/
def toFixed1 (x : ℚ) : String :=
  let n : Int := ⌊x * 10 + 1/2⌋
  s!"{n / 10}.{(n % 10).natAbs}"

/-- Environment standing for the asynchronous data dependencies of the
recommendation services: the champion catalog (id/name pairs in map-iteration
order) and the three per-champion queries answered by the stats aggregator /
data service (`null` results as `none`). -/
structure StatsEnv where
  champions : List (Int × String)
  championStats : Int → Role → Option ChampionStats
  matchupData : Int → Int → Role → Option Matchup
  synergyData : Int → Int → Role → Option Synergy

namespace Backend
/-! The recommendation service of
`src/backend/src/services/recommendation.service.ts`. -/

/-- `calculateWinRateScore`: `(stats.winRate - 0.45) * 200` clamped by
`Math.max(0, Math.min(100, baseScore))`. -/
def calculateWinRateScore (stats : ChampionStats) : ℚ :=
  let baseScore := (stats.winRate - 0.45) * 200
  max 0 (min 100 baseScore)

/-- `calculatePickRateScore`: the `tierScores[stats.tier] || 50` lookup
(S=80, A=60, B=40, C=20, D=10, otherwise 50). -/
def calculatePickRateScore (stats : ChampionStats) : ℚ :=
  if stats.tier = "S" then 80
  else if stats.tier = "A" then 60
  else if stats.tier = "B" then 40
  else if stats.tier = "C" then 20
  else if stats.tier = "D" then 10
  else 50

/-- `calculateCounterScore`: neutral 50 with no enemies or no valid matchup
data (valid means `matches >= 10`), otherwise the average matchup win rate
mapped through `((avg - 0.45) / 0.10) * 100` and clamped. -/
def calculateCounterScore (env : StatsEnv) (championId : Int)
    (state : ChampionSelectState) (role : Role) : ℚ :=
  if !enableCounterCalculation || state.enemyTeam.length = 0 then 50
  else
    let matchups := state.enemyTeam.map fun enemy =>
      env.matchupData championId enemy.championId role
    let validMatchups := (matchups.filterMap id).filter fun m => 10 ≤ m.matches
    if validMatchups.length = 0 then 50
    else
      let avgWinRate := (validMatchups.map Matchup.winRate).sum / (validMatchups.length : ℚ)
      let score := ((avgWinRate - 0.45) / 0.10) * 100
      max 0 (min 100 score)

/-- `calculateSynergyScore`: neutral 50 with no allies or no valid synergy
data (valid means `matches >= 5`), otherwise the average synergy win rate
mapped through `((avg - 0.48) / 0.08) * 100` and clamped. -/
def calculateSynergyScore (env : StatsEnv) (championId : Int)
    (state : ChampionSelectState) (role : Role) : ℚ :=
  if !enableSynergyCalculation || state.myTeam.length = 0 then 50
  else
    let synergies := state.myTeam.map fun ally =>
      env.synergyData championId ally.championId role
    let validSynergies := (synergies.filterMap id).filter fun s => 5 ≤ s.matches
    if validSynergies.length = 0 then 50
    else
      let avgWinRate := (validSynergies.map Synergy.winRate).sum / (validSynergies.length : ℚ)
      let score := ((avgWinRate - 0.48) / 0.08) * 100
      max 0 (min 100 score)

/-- `generateReasoning`: ordered template sentences chosen by thresholds. -/
def generateReasoning (stats : ChampionStats) (counterScore synergyScore : ℚ)
    (state : ChampionSelectState) : List String :=
  let winRatePct := toFixed1 (stats.winRate * 100)
  let r1 : List String :=
    if 0.52 ≤ stats.winRate then
      [s!"Strong {winRatePct}% win rate in {stats.tier} tier"]
    else if 0.50 ≤ stats.winRate then
      [s!"Solid {winRatePct}% win rate"]
    else []
  let r2 : List String :=
    if stats.tier = "S" ∨ stats.tier = "A" then
      [s!"High tier champion ({stats.tier} tier)"]
    else []
  let r3 : List String :=
    if 70 ≤ counterScore then ["Excellent matchup into enemy composition"]
    else if 55 ≤ counterScore then ["Favorable matchups"]
    else if counterScore < 40 then ["Challenging matchups - requires skill"]
    else []
  let r4 : List String :=
    if 65 ≤ synergyScore ∧ 0 < state.myTeam.length then
      ["Strong synergy with team composition"]
    else []
  let r5 : List String :=
    if stats.matches < 50 then ["Limited data - results may vary"] else []
  let reasons := r1 ++ r2 ++ r3 ++ r4 ++ r5
  if reasons.length = 0 then ["Balanced pick for current situation"] else reasons

/-- `calculateChampionScore`: `none` models the `null` result (no stats, or
`stats.matches < config.dataService.minMatches`); otherwise the four
sub-scores are combined with the given weights. -/
def calculateChampionScore (env : StatsEnv) (championId : Int)
    (state : ChampionSelectState) (weights : RecommendationWeights) :
    Option RecommendationScore :=
  match state.myRole with
  | none => none
  | some role =>
    match env.championStats championId role with
    | none => none
    | some stats =>
      if stats.matches < configMinMatches then none
      else
        let winRateScore := calculateWinRateScore stats
        let pickRateScore := calculatePickRateScore stats
        let counterScore := calculateCounterScore env championId state role
        let synergyScore := calculateSynergyScore env championId state role
        let totalScore :=
          winRateScore * weights.winRate +
          pickRateScore * weights.pickRate +
          counterScore * weights.counterScore +
          synergyScore * weights.synergyScore
        let reasoning := generateReasoning stats counterScore synergyScore state
        let championName := ((env.champions.find? fun c => c.1 = championId).map
          Prod.snd).getD "Unknown"
        some
          { championId := championId
            championName := championName
            role := role
            totalScore := totalScore
            breakdown :=
              { winRateScore := winRateScore
                pickRateScore := pickRateScore
                counterScore := counterScore
                synergyScore := synergyScore }
            stats := stats
            reasoning := reasoning }

/-- The `for (let i = 0; i < l.length; i += batchSize)` slicing loop of
`getRecommendations`: the list of consecutive `slice(i, i + b)` batches. -/
def sliceBatches (b : Nat) : List α → List (List α)
  | [] => []
  | a :: l => (a :: l.take (b - 1)) :: sliceBatches b (l.drop (b - 1))
termination_by l => l.length
decreasing_by
  simp only [List.length_drop, List.length_cons]
  omega

/-- `batchSize` in `getRecommendations`. -/
def batchSize : Nat := 10

/-- `getRecommendations`: `none` models the thrown error when `myRole` is
missing.  Candidates are the catalog keys minus picked/banned ids; scores are
computed per batch, `null`s filtered, sorted by `totalScore` descending
(`sort((a, b) => b.totalScore - a.totalScore)`), truncated by
`slice(0, topN)`. -/
def getRecommendations (env : StatsEnv) (state : ChampionSelectState)
    (weights : RecommendationWeights) (topN : Nat) :
    Option (List RecommendationScore) :=
  match state.myRole with
  | none => none
  | some _ =>
    let pickedIds := state.myTeam.map PlayerPick.championId ++
      state.enemyTeam.map PlayerPick.championId ++ state.bannedChampions
    let availableChampions := (env.champions.map Prod.fst).filter fun id =>
      !pickedIds.contains id
    let allScores := ((sliceBatches batchSize availableChampions).map fun batch =>
      (batch.map fun championId =>
        calculateChampionScore env championId state weights).filterMap id).flatten
    let validScores := allScores.mergeSort fun a b =>
      decide (b.totalScore ≤ a.totalScore)
    some (validScores.take topN)

end Backend

namespace Legacy
/-! The first module of `src/unnamed/part_001`: the data-service-based
recommendation service.  Shares the draft-state handling of the backend
variant but uses a minimum of 100 matches, a pick-rate-based popularity
score, and matchup/synergy validity thresholds of 50 and 30 matches. -/

/-- `calculateWinRateScore` (identical formula to the backend variant). -/
def calculateWinRateScore (stats : ChampionStats) : ℚ :=
  let baseScore := (stats.winRate - 0.45) * 200
  max 0 (min 100 baseScore)

/-- `calculatePickRateScore`: `(stats.pickRate / 0.10) * 100` clamped. -/
def calculatePickRateScore (stats : ChampionStats) : ℚ :=
  let baseScore := (stats.pickRate / 0.10) * 100
  max 0 (min 100 baseScore)

/-- `calculateCounterScore` with matchup validity `matches >= 50`. -/
def calculateCounterScore (env : StatsEnv) (championId : Int)
    (state : ChampionSelectState) (role : Role) : ℚ :=
  if !enableCounterCalculation || state.enemyTeam.length = 0 then 50
  else
    let matchups := state.enemyTeam.map fun enemy =>
      env.matchupData championId enemy.championId role
    let validMatchups := (matchups.filterMap id).filter fun m => 50 ≤ m.matches
    if validMatchups.length = 0 then 50
    else
      let avgWinRate := (validMatchups.map Matchup.winRate).sum / (validMatchups.length : ℚ)
      let score := ((avgWinRate - 0.45) / 0.10) * 100
      max 0 (min 100 score)

/-- `calculateSynergyScore` with synergy validity `matches >= 30`. -/
def calculateSynergyScore (env : StatsEnv) (championId : Int)
    (state : ChampionSelectState) (role : Role) : ℚ :=
  if !enableSynergyCalculation || state.myTeam.length = 0 then 50
  else
    let synergies := state.myTeam.map fun ally =>
      env.synergyData championId ally.championId role
    let validSynergies := (synergies.filterMap id).filter fun s => 30 ≤ s.matches
    if validSynergies.length = 0 then 50
    else
      let avgWinRate := (validSynergies.map Synergy.winRate).sum / (validSynergies.length : ℚ)
      let score := ((avgWinRate - 0.48) / 0.08) * 100
      max 0 (min 100 score)

/-- `generateReasoning` of the legacy service (adds pick-rate sentences). -/
def generateReasoning (stats : ChampionStats) (counterScore synergyScore : ℚ)
    (state : ChampionSelectState) : List String :=
  let winRatePct := toFixed1 (stats.winRate * 100)
  let r1 : List String :=
    if 0.52 ≤ stats.winRate then
      [s!"Strong {winRatePct}% win rate in {stats.tier} tier"]
    else if 0.50 ≤ stats.winRate then
      [s!"Solid {winRatePct}% win rate"]
    else []
  let r2 : List String :=
    if 0.10 ≤ stats.pickRate then ["Very popular pick - proven reliability"]
    else if 0.05 ≤ stats.pickRate then ["Popular meta pick"]
    else if stats.pickRate < 0.02 then ["Niche pick - consider team comfort"]
    else []
  let r3 : List String :=
    if 70 ≤ counterScore then ["Excellent matchup into enemy composition"]
    else if 55 ≤ counterScore then ["Favorable matchups"]
    else if counterScore < 40 then ["Challenging matchups - requires skill"]
    else []
  let r4 : List String :=
    if 65 ≤ synergyScore ∧ 0 < state.myTeam.length then
      ["Strong synergy with team composition"]
    else if synergyScore < 40 ∧ 0 < state.myTeam.length then
      ["Limited synergy with current team"]
    else []
  let reasons := r1 ++ r2 ++ r3 ++ r4
  if reasons.length = 0 then ["Balanced pick for current situation"] else reasons

/-- `calculateChampionScore`: skips champions with fewer than 100 matches. -/
def calculateChampionScore (env : StatsEnv) (championId : Int)
    (state : ChampionSelectState) (weights : RecommendationWeights) :
    Option RecommendationScore :=
  match state.myRole with
  | none => none
  | some role =>
    match env.championStats championId role with
    | none => none
    | some stats =>
      if stats.matches < 100 then none
      else
        let winRateScore := calculateWinRateScore stats
        let pickRateScore := calculatePickRateScore stats
        let counterScore := calculateCounterScore env championId state role
        let synergyScore := calculateSynergyScore env championId state role
        let totalScore :=
          winRateScore * weights.winRate +
          pickRateScore * weights.pickRate +
          counterScore * weights.counterScore +
          synergyScore * weights.synergyScore
        let reasoning := generateReasoning stats counterScore synergyScore state
        let championName := ((env.champions.find? fun c => c.1 = championId).map
          Prod.snd).getD "Unknown"
        some
          { championId := championId
            championName := championName
            role := role
            totalScore := totalScore
            breakdown :=
              { winRateScore := winRateScore
                pickRateScore := pickRateScore
                counterScore := counterScore
                synergyScore := synergyScore }
            stats := stats
            reasoning := reasoning }

/-- `getRecommendations` of the legacy service: one flat `Promise.all` map
instead of batches, otherwise the same filter/sort/truncate pipeline. -/
def getRecommendations (env : StatsEnv) (state : ChampionSelectState)
    (weights : RecommendationWeights) (topN : Nat) :
    Option (List RecommendationScore) :=
  match state.myRole with
  | none => none
  | some _ =>
    let pickedIds := state.myTeam.map PlayerPick.championId ++
      state.enemyTeam.map PlayerPick.championId ++ state.bannedChampions
    let availableChampions := (env.champions.map Prod.fst).filter fun id =>
      !pickedIds.contains id
    let scores := availableChampions.map fun championId =>
      calculateChampionScore env championId state weights
    let validScores := (scores.filterMap id).mergeSort fun a b =>
      decide (b.totalScore ≤ a.totalScore)
    some (validScores.take topN)

/-- `normalizeWeights`: merge the partial override onto the defaults
(`{ ...defaultWeights, ...weights }`), then divide each component by the sum
of the four merged components. -/
def normalizeWeights (winRate pickRate counterScore synergyScore : Option ℚ) :
    RecommendationWeights :=
  let merged : RecommendationWeights :=
    { winRate := winRate.getD defaultWeights.winRate
      pickRate := pickRate.getD defaultWeights.pickRate
      counterScore := counterScore.getD defaultWeights.counterScore
      synergyScore := synergyScore.getD defaultWeights.synergyScore }
  let sum := merged.winRate + merged.pickRate + merged.counterScore + merged.synergyScore
  { winRate := merged.winRate / sum
    pickRate := merged.pickRate / sum
    counterScore := merged.counterScore / sum
    synergyScore := merged.synergyScore / sum }

end Legacy

namespace StatsAggregator
/-! The second module of `src/unnamed/part_001`: `StatsAggregatorService`. -/

/-- `SAMPLE_SIZE`: number of matches to analyze per champion. -/
def SAMPLE_SIZE : Nat := 200

/-- `MIN_MATCHES`: minimum matches for reliable stats. -/
def MIN_MATCHES : Nat := 30

/-- One participant record of a Riot match (the fields the aggregator reads). -/
structure Participant where
  championId : Int
  teamPosition : String
  teamId : Int
  win : Bool
  kills : Int
  deaths : Int
  assists : Int
deriving DecidableEq, Repr

/-- `match.info` (the fields the aggregator reads). -/
structure MatchInfo where
  participants : List Participant
  gameDuration : Int
deriving DecidableEq, Repr

/-- A raw match record returned by the provider. -/
structure MatchData where
  info : MatchInfo
deriving DecidableEq, Repr

/-- `normalizeRole`: the fixed `roleMap[riotRole] || null` mapping. -/
def normalizeRole (riotRole : String) : Option Role :=
  if riotRole = "TOP" then some Role.top
  else if riotRole = "JUNGLE" then some Role.jungle
  else if riotRole = "MIDDLE" then some Role.middle
  else if riotRole = "BOTTOM" then some Role.bottom
  else if riotRole = "UTILITY" then some Role.utility
  else none

/-- `matchHasChampion`: some participant plays the champion in the role. -/
def matchHasChampion (m : MatchData) (championId : Int) (role : Role) : Bool :=
  m.info.participants.any fun p =>
    p.championId = championId && normalizeRole p.teamPosition = some role

/-- The per-match performance record built inside `calculateStats`. -/
structure Performance where
  win : Bool
  kills : Int
  deaths : Int
  assists : Int
  gameDuration : Int
deriving DecidableEq, Repr

/-- The body of the `matches.map` in `calculateStats`: find the participant
for the queried champion/role and read its fields.  `none` models the
`TypeError` thrown when `find` comes back empty (caught by the caller). -/
def performanceOf (championId : Int) (role : Role) (m : MatchData) :
    Option Performance :=
  (m.info.participants.find? fun p =>
      p.championId = championId && normalizeRole p.teamPosition = some role).map
    fun participant =>
      { win := participant.win
        kills := participant.kills
        deaths := participant.deaths
        assists := participant.assists
        gameDuration := m.info.gameDuration }

/-- `calculateTier`: fixed win-rate breakpoints. -/
def calculateTier (winRate : ℚ) : String :=
  if 0.53 ≤ winRate then "S"
  else if 0.51 ≤ winRate then "A"
  else if 0.49 ≤ winRate then "B"
  else if 0.47 ≤ winRate then "C"
  else "D"

/-- The `matches.map(...)` building the performances list in
`calculateStats`: `none` models the `TypeError` thrown as soon as one match
lacks the queried participant. -/
def mapPerformances (championId : Int) (role : Role) :
    List MatchData → Option (List Performance)
  | [] => some []
  | m :: ms =>
    match performanceOf championId role m with
    | none => none
    | some p => (mapPerformances championId role ms).map fun ps => p :: ps

/-- `calculateStats`: win rate over the performances, tier from the win rate,
and fixed placeholders `pickRate: 0.05`, `banRate: 0`, `rank: 0`.  `none`
models the thrown `TypeError` when some match lacks the participant. -/
def calculateStats (championId : Int) (role : Role) («matches» : List MatchData) :
    Option ChampionStats :=
  (mapPerformances championId role «matches»).map fun performances =>
    let wins := (performances.filter Performance.win).length
    let winRate : ℚ := (wins : ℚ) / (performances.length : ℚ)
    let tier := calculateTier winRate
    { championId := championId
      role := role
      winRate := winRate
      pickRate := 0.05
      banRate := 0
      «matches» := performances.length
      tier := tier
      rank := 0 }

/-- Environment standing for the external provider as the aggregator uses
it: the high-elo player pool, the summoner lookup (`none` models a missing
summoner or a caught per-player failure, both of which `continue`), and the
ranked match details fetched for a puuid (`getMatchIds(puuid, 20, 420)`
followed by `getMatchesBatch`). -/
structure AggEnv where
  highEloPlayers : List String
  summonerPuuid : String → Option String
  matchHistory : String → List MatchData

/-- The player loop of `getSampleMatches`: for each summoner, fetch and
filter their matches, append, and stop once `SAMPLE_SIZE` is accumulated. -/
def accumulateMatches (env : AggEnv) (championId : Int) (role : Role) :
    List String → List MatchData → List MatchData
  | [], allMatches => allMatches
  | summonerId :: rest, allMatches =>
    match env.summonerPuuid summonerId with
    | none => accumulateMatches env championId role rest allMatches
    | some puuid =>
      let «matches» := env.matchHistory puuid
      let relevantMatches := matches.filter fun m =>
        matchHasChampion m championId role
      let allMatches2 := allMatches ++ relevantMatches
      if SAMPLE_SIZE ≤ allMatches2.length then allMatches2
      else accumulateMatches env championId role rest allMatches2

/-- The accumulated list that `getSampleMatches` stores in the cache (and
that a later call under an unexpired cache returns verbatim). -/
def sampleCacheValue (env : AggEnv) (championId : Int) (role : Role) :
    List MatchData :=
  accumulateMatches env championId role (env.highEloPlayers.take 10) []

/-- `getSampleMatches` on a cold cache: the accumulated sample truncated by
`slice(0, SAMPLE_SIZE)`. -/
def getSampleMatches (env : AggEnv) (championId : Int) (role : Role) :
    List MatchData :=
  (sampleCacheValue env championId role).take SAMPLE_SIZE

/-- `getChampionStats` on a cold cache: sample the matches, declare
insufficient data below `MIN_MATCHES`, otherwise compute the stats
(`none` also models the caught exception path). -/
def getChampionStats (env : AggEnv) (championId : Int) (role : Role) :
    Option ChampionStats :=
  let «matches» := getSampleMatches env championId role
  if matches.length < MIN_MATCHES then none
  else calculateStats championId role «matches»

end StatsAggregator

namespace CacheService
/-! The second module of `src/backend/src/config/config.ts`:
the in-memory TTL cache.  The `Map` is modelled as a function from keys to
optional entries, `Date.now()` as an explicit `ℤ` argument. -/

/-- `CacheEntry` from the types module. -/
structure CacheEntry (V : Type) where
  data : V
  timestamp : Int
  expiresAt : Int

/-- The cache store. -/
def Store (V : Type) : Type := String → Option (CacheEntry V)

/-- `set(key, data, ttl)` at time `now`: store with `expiresAt = now + ttl`. -/
def set {V : Type} (m : Store V) (key : String) (data : V) (ttl : Int)
    (now : Int) : Store V :=
  fun k => if k = key then some { data := data, timestamp := now, expiresAt := now + ttl } else m k

/-- `get(key)` at time `now`: the returned value and the store afterwards
(the entry is deleted when `now > expiresAt`). -/
def get {V : Type} (m : Store V) (key : String) (now : Int) :
    Option V × Store V :=
  match m key with
  | none => (none, m)
  | some entry =>
    if entry.expiresAt < now then
      (none, fun k => if k = key then none else m k)
    else
      (some entry.data, m)

/-- `has(key)` at time `now`: the boolean and the store afterwards. -/
def has {V : Type} (m : Store V) (key : String) (now : Int) :
    Bool × Store V :=
  match m key with
  | none => (false, m)
  | some entry =>
    if entry.expiresAt < now then
      (false, fun k => if k = key then none else m k)
    else
      (true, m)

end CacheService

namespace ApiController
/-! Request validation of `ApiController.getRecommendations`
(`src/backend/src/controllers/api.controller.ts`). -/

/-- The request body, with the optional weight override that is passed to
`normalizeWeights` when present. -/
structure RecommendationRequest where
  currentState : Option ChampionSelectState
  winRate : Option ℚ
  pickRate : Option ℚ
  counterScore : Option ℚ
  synergyScore : Option ℚ
  topN : Option Nat

/-- The controller's input checks before calling the recommendation service:
400 with an error string when `currentState` or `myRole` is missing,
otherwise no rejection.  Nothing else about the request is validated. -/
def validateRequest (req : RecommendationRequest) : Option String :=
  match req.currentState with
  | none => some "currentState is required"
  | some st =>
    match st.myRole with
    | none => some "myRole is required in currentState"
    | some _ => none

/-- The weights the controller passes on: `normalizeWeights` applied to the
override when any weight field is present. -/
def effectiveWeights (req : RecommendationRequest) : Option RecommendationWeights :=
  if req.winRate.isSome ∨ req.pickRate.isSome ∨ req.counterScore.isSome ∨
      req.synergyScore.isSome then
    some (Legacy.normalizeWeights req.winRate req.pickRate req.counterScore req.synergyScore)
  else none

end ApiController

/-- A request whose draft state is valid but whose weight override has all
four components 0 (sum 0). -/
def zeroWeightsRequest : ApiController.RecommendationRequest :=
  { currentState := some
      { myRole := some Role.middle, myTeam := [], enemyTeam := [],
        bannedChampions := [] }
    winRate := some 0
    pickRate := some 0
    counterScore := some 0
    synergyScore := some 0
    topN := none }

/-- A single-match sample used to witness the placeholder-field theorem. -/
def placeholderMatch : StatsAggregator.MatchData :=
  ⟨⟨[⟨1, "TOP", 100, true, 3, 1, 4⟩], 1800⟩⟩

/-- The stats `calculateStats` computes from that sample. -/
def placeholderStats : ChampionStats :=
  { championId := 1, role := Role.top, winRate := 1, pickRate := 0.05,
    banRate := 0, «matches» := 1, tier := "S", rank := 0 }

/-- A provider environment with one player owning a 20-match history,
witnessing the sample-size bound. -/
def sampleBoundEnv : StatsAggregator.AggEnv :=
  { highEloPlayers := ["p1"]
    summonerPuuid := fun s => some s
    matchHistory := fun _ => List.replicate 20 placeholderMatch }

/-- A won sample match for champion 1 in the TOP role. -/
def sampleWin : StatsAggregator.MatchData :=
  ⟨⟨[⟨1, "TOP", 100, true, 0, 0, 0⟩], 1800⟩⟩

/-- A lost sample match for champion 1 in the TOP role. -/
def sampleLoss : StatsAggregator.MatchData :=
  ⟨⟨[⟨1, "TOP", 100, false, 0, 0, 0⟩], 1800⟩⟩

/-- The performance extracted from `sampleWin`. -/
def perfWin : StatsAggregator.Performance := ⟨true, 0, 0, 0, 1800⟩

/-- The performance extracted from `sampleLoss`. -/
def perfLoss : StatsAggregator.Performance := ⟨false, 0, 0, 0, 1800⟩

/-- Provider environment whose accumulated sample is exactly 30 matches with
16 wins. -/
def statsEnv30 : StatsAggregator.AggEnv :=
  { highEloPlayers := ["p1"]
    summonerPuuid := fun s => some s
    matchHistory := fun _ =>
      List.replicate 16 sampleWin ++ List.replicate 14 sampleLoss }

/-- Provider environment whose accumulated sample is only 29 matches. -/
def statsEnv29 : StatsAggregator.AggEnv :=
  { highEloPlayers := ["p1"]
    summonerPuuid := fun s => some s
    matchHistory := fun _ =>
      List.replicate 15 sampleWin ++ List.replicate 14 sampleLoss }

/-- A champion-stats record with winRate 0.523, tier A, and a sufficient
sample (100 matches ≥ the 30-match minimum). -/
def demoStats : ChampionStats :=
  { championId := 1, role := Role.middle, winRate := 0.523, pickRate := 0.05,
    banRate := 0, «matches» := 100, tier := "A", rank := 0 }

/-- Catalog of four champions; only champion 1 has stats; no matchup or
synergy data. -/
def demoEnv : StatsEnv :=
  { champions := [(1, "Ahri"), (2, "Zed"), (3, "Lux"), (4, "Jinx")]
    championStats := fun cid _ => if cid = 1 then some demoStats else none
    matchupData := fun _ _ _ => none
    synergyData := fun _ _ _ => none }

/-- A draft state with one own pick (2), one enemy pick (3) and one ban (4). -/
def demoState : ChampionSelectState :=
  { myRole := some Role.middle
    myTeam := [⟨2⟩]
    enemyTeam := [⟨3⟩]
    bannedChampions := [4] }

/-- The recommendation list the backend service computes for `demoEnv` and
`demoState` (it contains exactly the one surviving candidate, champion 1). -/
def demoList : List RecommendationScore :=
  (Backend.getRecommendations demoEnv demoState defaultWeights 5).getD []

/-- The score record the backend service computes for champion 1 in
`demoEnv`/`demoState` under the default weights. -/
def demoScore : RecommendationScore :=
  (Backend.calculateChampionScore demoEnv 1 demoState defaultWeights).getD default

/-- Single-candidate catalog as in the spec's end-to-end example: one
champion, stats with winRate 0.523 / tier A, no matchup or synergy data. -/
def soloEnv : StatsEnv :=
  { champions := [(1, "Ahri")]
    championStats := fun cid _ => if cid = 1 then some demoStats else none
    matchupData := fun _ _ _ => none
    synergyData := fun _ _ _ => none }

/-- The spec example's draft state: empty picks and bans, role set. -/
def soloState : ChampionSelectState :=
  { myRole := some Role.middle, myTeam := [], enemyTeam := [],
    bannedChampions := [] }

/-- The score record the backend service computes for the spec example's
single candidate. -/
def soloScore : RecommendationScore :=
  (Backend.calculateChampionScore soloEnv 1 soloState defaultWeights).getD
    default

/-! Helper lemmas shared by the claim theorems. -/

/-- Flattening the batches of the slicing loop recovers the input list. -/
theorem sliceBatches_flatten {α : Type} (b : Nat) (l : List α) :
    (Backend.sliceBatches b l).flatten = l := by
  induction l using Backend.sliceBatches.induct b with
  | case1 => simp [Backend.sliceBatches]
  | case2 a t ih =>
    rw [Backend.sliceBatches]
    simp only [List.flatten_cons, List.cons_append, ih]
    simp [List.take_append_drop]

/-- The batched map-then-filter loop of `Backend.getRecommendations` equals a
plain `filterMap` over the whole candidate list. -/
theorem batched_filterMap {α β : Type} (b : Nat) (f : α → Option β) (l : List α) :
    ((Backend.sliceBatches b l).map fun batch =>
      (batch.map f).filterMap id).flatten = l.filterMap f := by
  have h1 : ∀ L : List (List α),
      ((L.map fun batch => (batch.map f).filterMap id)).flatten =
        L.flatten.filterMap f := by
    intro L
    induction L with
    | nil => rfl
    | cons a t ih => simp [List.filterMap_append, ih, List.filterMap_map]
  rw [h1, sliceBatches_flatten]

/-- `Math.max(0, Math.min(100, x))` lands in `[0, 100]`. -/
theorem clamp_mem (x : ℚ) : 0 ≤ max 0 (min 100 x) ∧ max 0 (min 100 x) ≤ 100 :=
  ⟨le_max_left 0 _, max_le (by norm_num) (min_le_left 100 x)⟩

/-- The backend score record keeps the champion id it was computed for. -/
theorem backend_score_championId {env : StatsEnv} {cid : Int}
    {st : ChampionSelectState} {w : RecommendationWeights}
    {r : RecommendationScore}
    (h : Backend.calculateChampionScore env cid st w = some r) :
    r.championId = cid := by
  simp only [Backend.calculateChampionScore] at h
  split at h
  · exact absurd h (by simp)
  · split at h
    · exact absurd h (by simp)
    · split at h
      · exact absurd h (by simp)
      · simp only [Option.some.injEq] at h
        rw [← h]

/-- The legacy score record keeps the champion id it was computed for. -/
theorem legacy_score_championId {env : StatsEnv} {cid : Int}
    {st : ChampionSelectState} {w : RecommendationWeights}
    {r : RecommendationScore}
    (h : Legacy.calculateChampionScore env cid st w = some r) :
    r.championId = cid := by
  simp only [Legacy.calculateChampionScore] at h
  split at h
  · exact absurd h (by simp)
  · split at h
    · exact absurd h (by simp)
    · split at h
      · exact absurd h (by simp)
      · simp only [Option.some.injEq] at h
        rw [← h]

/-- Members of the sorted-and-truncated output come from the score list. -/
theorem mem_sorted_take {le : RecommendationScore → RecommendationScore → Bool}
    {scores : List RecommendationScore} {n : Nat} {r : RecommendationScore}
    (hr : r ∈ (scores.mergeSort le).take n) : r ∈ scores := by
  have h1 : r ∈ scores.mergeSort le := (List.take_sublist n _).mem hr
  exact (List.mergeSort_perm scores le).mem_iff.mp h1

/-- The sorted-and-truncated output is pairwise descending in `totalScore`. -/
theorem sorted_take_pairwise (scores : List RecommendationScore) (n : Nat) :
    ((scores.mergeSort fun a b => decide (b.totalScore ≤ a.totalScore)).take
      n).Pairwise fun a b => b.totalScore ≤ a.totalScore := by
  have hs := @List.sorted_mergeSort RecommendationScore
    (fun a b => decide (b.totalScore ≤ a.totalScore))
    (fun a b c hab hbc => by
      simp only [decide_eq_true_eq] at *
      exact le_trans hbc hab)
    (fun a b => by
      simp only [Bool.or_eq_true, decide_eq_true_eq]
      exact le_total _ _) scores
  have ht := List.Pairwise.sublist (List.take_sublist n _) hs
  exact ht.imp fun h => by simpa using h

/-! Claim theorems. -/

/-- C4: for every weights input whose four components sum to a positive
value, `normalizeWeights` returns weights whose four components sum to
exactly 1 (so in particular within floating-point tolerance), regardless of
scale; in particular {4,1,3,2} normalizes to {0.4,0.1,0.3,0.2}. -/
theorem normalizeWeights_sum_one :
    (∀ a b c d : ℚ, 0 < a + b + c + d →
      weightsSum (Legacy.normalizeWeights (some a) (some b) (some c) (some d)) = 1) ∧
    Legacy.normalizeWeights (some 4) (some 1) (some 3) (some 2) =
      { winRate := 0.4, pickRate := 0.1, counterScore := 0.3, synergyScore := 0.2 } := by
  constructor
  · intro a b c d h
    have hs : a + b + c + d ≠ 0 := ne_of_gt h
    simp only [Legacy.normalizeWeights, weightsSum, Option.getD_some]
    field_simp
  · simp only [Legacy.normalizeWeights, Option.getD_some, defaultWeights,
      RecommendationWeights.mk.injEq]
    norm_num

/-- Witness for C4 at the concrete input {4,1,3,2}. -/
theorem normalizeWeights_sum_one_witness :
    (0:ℚ) < 4 + 1 + 3 + 2 ∧
    weightsSum (Legacy.normalizeWeights (some 4) (some 1) (some 3) (some 2)) = 1 :=
  ⟨by norm_num, normalizeWeights_sum_one.1 4 1 3 2 (by norm_num)⟩

/-- C3 (code bug): a weights input whose four components sum to 0 is NOT
rejected as a client-side input error — the controller validates only
`currentState` and `myRole`, then hands the zero-sum override straight to
`normalizeWeights`, which divides by the zero sum (`NaN` in JS; `0` in this
rational model), so the result does not satisfy the sum-to-1 invariant
either.  The spec requires such inputs to be rejected before scoring. -/
theorem zero_weights_not_rejected :
    ApiController.validateRequest zeroWeightsRequest = none ∧
    ApiController.effectiveWeights zeroWeightsRequest =
      some (Legacy.normalizeWeights (some 0) (some 0) (some 0) (some 0)) ∧
    weightsSum (Legacy.normalizeWeights (some 0) (some 0) (some 0) (some 0)) ≠ 1 := by
  refine ⟨rfl, ?_, by norm_num [Legacy.normalizeWeights, weightsSum]⟩
  simp [ApiController.effectiveWeights, zeroWeightsRequest]

/-- C9: after `set(k, v, ttl)` at time `now`, `get(k)` at any time
`t ≤ now + ttl` returns `v`; at any `t > now + ttl`, `get(k)` returns absent
and removes the entry, and `has(k)` is false — all checked lazily on read. -/
theorem cache_ttl_get_has {V : Type} (m : CacheService.Store V) (k : String)
    (v : V) (ttl now t : Int) :
    (t ≤ now + ttl →
      (CacheService.get (CacheService.set m k v ttl now) k t).1 = some v) ∧
    (now + ttl < t →
      (CacheService.get (CacheService.set m k v ttl now) k t).1 = none ∧
      (CacheService.get (CacheService.set m k v ttl now) k t).2 k = none ∧
      (CacheService.has (CacheService.set m k v ttl now) k t).1 = false) := by
  have hset : CacheService.set m k v ttl now k =
      some { data := v, timestamp := now, expiresAt := now + ttl } := by
    simp [CacheService.set]
  constructor
  · intro h
    simp [CacheService.get, hset, not_lt.mpr h]
  · intro h
    refine ⟨?_, ?_, ?_⟩ <;> simp [CacheService.get, CacheService.has, hset, h]

/-- Witness for C9: `set` at time 0 with ttl 100; read at 50 and at 151. -/
theorem cache_ttl_get_has_witness :
    (CacheService.get (CacheService.set (fun _ => none) "k" (7 : Nat) 100 0) "k" 50).1 = some 7 ∧
    (CacheService.get (CacheService.set (fun _ => none) "k" (7 : Nat) 100 0) "k" 151).1 = none ∧
    (CacheService.get (CacheService.set (fun _ => none) "k" (7 : Nat) 100 0) "k" 151).2 "k" = none ∧
    (CacheService.has (CacheService.set (fun _ => none) "k" (7 : Nat) 100 0) "k" 151).1 = false :=
  ⟨(cache_ttl_get_has (fun _ => none) "k" 7 100 0 50).1 (by norm_num),
   (cache_ttl_get_has (fun _ => none) "k" 7 100 0 151).2 (by norm_num)⟩

/-- C10: every `ChampionStats` the aggregator's `calculateStats` produces
carries the fixed placeholders `pickRate = 0.05`, `banRate = 0`, `rank = 0`,
independent of the sampled matches. -/
theorem calculateStats_placeholders (cid : Int) (role : Role)
    (ms : List StatsAggregator.MatchData) (stats : ChampionStats)
    (h : StatsAggregator.calculateStats cid role ms = some stats) :
    stats.pickRate = 0.05 ∧ stats.banRate = 0 ∧ stats.rank = 0 := by
  simp only [StatsAggregator.calculateStats, Option.map_eq_some'] at h
  obtain ⟨perfs, _, hb⟩ := h
  rw [← hb]
  exact ⟨rfl, rfl, rfl⟩

/-- Witness for C10 at the one-match sample. -/
theorem calculateStats_placeholders_witness :
    StatsAggregator.calculateStats 1 Role.top [placeholderMatch] =
      some placeholderStats ∧
    (placeholderStats.pickRate = 0.05 ∧ placeholderStats.banRate = 0 ∧
      placeholderStats.rank = 0) :=
  ⟨by norm_num [StatsAggregator.calculateStats, StatsAggregator.mapPerformances,
      StatsAggregator.performanceOf, StatsAggregator.calculateTier,
      StatsAggregator.normalizeRole, placeholderMatch, placeholderStats,
      ChampionStats.mk.injEq],
   calculateStats_placeholders 1 Role.top [placeholderMatch] placeholderStats
    (by norm_num [StatsAggregator.calculateStats, StatsAggregator.mapPerformances,
      StatsAggregator.performanceOf, StatsAggregator.calculateTier,
      StatsAggregator.normalizeRole, placeholderMatch, placeholderStats,
      ChampionStats.mk.injEq])⟩

/-- Each loop iteration of `getSampleMatches` appends at most one player's
(filtered) match history, so the accumulated sample grows by at most 20
matches per player when the provider honours the requested count of 20. -/
theorem accumulateMatches_length_le (env : StatsAggregator.AggEnv) (cid : Int)
    (role : Role) (h : ∀ p, (env.matchHistory p).length ≤ 20) :
    ∀ (ps : List String) (acc : List StatsAggregator.MatchData),
      (StatsAggregator.accumulateMatches env cid role ps acc).length ≤
        acc.length + 20 * ps.length := by
  intro ps
  induction ps with
  | nil =>
    intro acc
    simp [StatsAggregator.accumulateMatches]
  | cons s rest ih =>
    intro acc
    rw [StatsAggregator.accumulateMatches]
    cases hp : env.summonerPuuid s with
    | none =>
      have := ih acc
      simp only [List.length_cons]
      calc (StatsAggregator.accumulateMatches env cid role rest acc).length
          ≤ acc.length + 20 * rest.length := ih acc
        _ ≤ acc.length + 20 * (rest.length + 1) := by omega
    | some puuid =>
      simp only [List.length_cons]
      have hrel : ((env.matchHistory puuid).filter fun m =>
          StatsAggregator.matchHasChampion m cid role).length ≤ 20 :=
        le_trans (List.length_filter_le _ _) (h puuid)
      split
      · simp only [List.length_append]
        omega
      · have := ih (acc ++ (env.matchHistory puuid).filter fun m =>
          StatsAggregator.matchHasChampion m cid role)
        simp only [List.length_append] at this
        omega

/-- C8: every list of raw sample matches the aggregator can hand out — the
fresh `slice(0, SAMPLE_SIZE)` return and the accumulated list stored in the
cache and returned verbatim on warm reads — has at most `SAMPLE_SIZE = 200`
entries, given that each per-player history fetch honours the requested
count of 20 match ids (at most 10 players are sampled). -/
theorem sample_matches_bounded (env : StatsAggregator.AggEnv) (cid : Int)
    (role : Role) (h : ∀ p, (env.matchHistory p).length ≤ 20) :
    (StatsAggregator.sampleCacheValue env cid role).length ≤
      StatsAggregator.SAMPLE_SIZE ∧
    (StatsAggregator.getSampleMatches env cid role).length ≤
      StatsAggregator.SAMPLE_SIZE := by
  have h1 := accumulateMatches_length_le env cid role h
    (env.highEloPlayers.take 10) []
  have h2 : (env.highEloPlayers.take 10).length ≤ 10 := by
    simp [List.length_take]
  constructor
  · rw [StatsAggregator.sampleCacheValue]
    simp only [List.length_nil, StatsAggregator.SAMPLE_SIZE] at h1 ⊢
    omega
  · rw [StatsAggregator.getSampleMatches]
    simp only [List.length_take, StatsAggregator.SAMPLE_SIZE]
    omega

/-- Witness for C8 at the concrete one-player environment. -/
theorem sample_matches_bounded_witness :
    (StatsAggregator.sampleCacheValue sampleBoundEnv 1 Role.top).length ≤
      StatsAggregator.SAMPLE_SIZE ∧
    (StatsAggregator.getSampleMatches sampleBoundEnv 1 Role.top).length ≤
      StatsAggregator.SAMPLE_SIZE :=
  sample_matches_bounded sampleBoundEnv 1 Role.top
    (fun p => by simp [sampleBoundEnv])

/-- `mapPerformances` preserves the list length when it succeeds. -/
theorem mapPerformances_length {cid : Int} {role : Role} :
    ∀ {ms : List StatsAggregator.MatchData}
      {ps : List StatsAggregator.Performance},
      StatsAggregator.mapPerformances cid role ms = some ps →
      ps.length = ms.length := by
  intro ms
  induction ms with
  | nil =>
    intro ps h
    simp only [StatsAggregator.mapPerformances, Option.some.injEq] at h
    simp [← h]
  | cons m t ih =>
    intro ps h
    rw [StatsAggregator.mapPerformances] at h
    cases hp : StatsAggregator.performanceOf cid role m with
    | none => rw [hp] at h; exact absurd h (by simp)
    | some p =>
      rw [hp] at h
      simp only [Option.map_eq_some'] at h
      obtain ⟨ps', hps', hcons⟩ := h
      rw [← hcons]
      simp [ih hps']

/-- `mapPerformances` over a replicated match succeeds with the replicated
performance. -/
theorem mapPerformances_replicate (cid : Int) (role : Role) (n : Nat)
    (m : StatsAggregator.MatchData) (p : StatsAggregator.Performance)
    (hp : StatsAggregator.performanceOf cid role m = some p) :
    StatsAggregator.mapPerformances cid role (List.replicate n m) =
      some (List.replicate n p) := by
  induction n with
  | zero => simp [StatsAggregator.mapPerformances]
  | succ n ih =>
    simp [List.replicate_succ, StatsAggregator.mapPerformances, hp, ih]

/-- `mapPerformances` distributes over append when both halves succeed. -/
theorem mapPerformances_append_some (cid : Int) (role : Role)
    {a b : List StatsAggregator.MatchData}
    {xs ys : List StatsAggregator.Performance}
    (ha : StatsAggregator.mapPerformances cid role a = some xs)
    (hb : StatsAggregator.mapPerformances cid role b = some ys) :
    StatsAggregator.mapPerformances cid role (a ++ b) = some (xs ++ ys) := by
  induction a generalizing xs with
  | nil =>
    simp only [StatsAggregator.mapPerformances, Option.some.injEq] at ha
    simpa [← ha]
  | cons m t ih =>
    rw [List.cons_append, StatsAggregator.mapPerformances]
    rw [StatsAggregator.mapPerformances] at ha
    cases hp : StatsAggregator.performanceOf cid role m with
    | none => rw [hp] at ha; exact absurd ha (by simp)
    | some p =>
      rw [hp] at ha
      simp only [Option.map_eq_some'] at ha
      obtain ⟨xs', hxs', hcons⟩ := ha
      rw [ih hxs', ← hcons]
      simp

/-- The 30-match environment's sample evaluates to the raw 16+14 list. -/
theorem statsEnv30_sample :
    StatsAggregator.getSampleMatches statsEnv30 1 Role.top =
      List.replicate 16 sampleWin ++ List.replicate 14 sampleLoss := by
  have hw : StatsAggregator.matchHasChampion sampleWin 1 Role.top = true := rfl
  have hl : StatsAggregator.matchHasChampion sampleLoss 1 Role.top = true := rfl
  rw [StatsAggregator.getSampleMatches, StatsAggregator.sampleCacheValue]
  have hacc : StatsAggregator.accumulateMatches statsEnv30 1 Role.top
      (statsEnv30.highEloPlayers.take 10) [] =
      List.replicate 16 sampleWin ++ List.replicate 14 sampleLoss := by
    rw [show statsEnv30.highEloPlayers.take 10 = ["p1"] from rfl,
      StatsAggregator.accumulateMatches]
    simp only [statsEnv30, List.filter_append, List.filter_replicate, hw, hl,
      if_pos]
    rw [if_neg (by simp [StatsAggregator.SAMPLE_SIZE]),
      StatsAggregator.accumulateMatches]
    simp
  rw [hacc]
  exact List.take_of_length_le (by simp [StatsAggregator.SAMPLE_SIZE])

/-- The performances of the 30-match sample: 16 wins then 14 losses. -/
theorem statsEnv30_perfs :
    StatsAggregator.mapPerformances 1 Role.top
      (List.replicate 16 sampleWin ++ List.replicate 14 sampleLoss) =
      some (List.replicate 16 perfWin ++ List.replicate 14 perfLoss) :=
  mapPerformances_append_some 1 Role.top
    (mapPerformances_replicate 1 Role.top 16 sampleWin perfWin rfl)
    (mapPerformances_replicate 1 Role.top 14 sampleLoss perfLoss rfl)

/-- C2 counterexample: on the 30-match, 16-win sample, `getChampionStats`
returns winRate 8/15 = 0.5333... as the claim says, but tier "S"
(0.5333 ≥ 0.53), not the claimed tier "A". -/
theorem stats_tier_counterexample :
    (StatsAggregator.getChampionStats statsEnv30 1 Role.top).map
      ChampionStats.winRate = some (8/15) ∧
    (StatsAggregator.getChampionStats statsEnv30 1 Role.top).map
      ChampionStats.tier = some "S" ∧
    (StatsAggregator.getChampionStats statsEnv30 1 Role.top).map
      ChampionStats.tier ≠ some "A" := by
  have hlen : (StatsAggregator.getSampleMatches statsEnv30 1 Role.top).length
      = 30 := by rw [statsEnv30_sample]; simp
  have hcalc : StatsAggregator.getChampionStats statsEnv30 1 Role.top =
      StatsAggregator.calculateStats 1 Role.top
        (StatsAggregator.getSampleMatches statsEnv30 1 Role.top) := by
    rw [StatsAggregator.getChampionStats]
    simp only [hlen, StatsAggregator.MIN_MATCHES]
    norm_num
  rw [hcalc, StatsAggregator.calculateStats, statsEnv30_sample,
    statsEnv30_perfs]
  simp only [Option.map_some', List.filter_append, List.filter_replicate]
  refine ⟨?_, ?_, ?_⟩ <;>
    norm_num [perfWin, perfLoss, StatsAggregator.calculateTier]
  decide

/-- C2 amended: with an accumulated sample of exactly 30 matches of which 16
are wins, `getChampionStats` returns winRate = 16/30 = 8/15 = 0.5333... and
tier "S" (8/15 meets the ≥ 0.53 breakpoint, not merely ≥ 0.51); with a
29-match sample it returns absent. -/
theorem stats_sample_amended :
    (∀ (env : StatsAggregator.AggEnv) (cid : Int) (role : Role)
        (perfs : List StatsAggregator.Performance),
      (StatsAggregator.getSampleMatches env cid role).length = 30 →
      StatsAggregator.mapPerformances cid role
        (StatsAggregator.getSampleMatches env cid role) = some perfs →
      (perfs.filter StatsAggregator.Performance.win).length = 16 →
      (StatsAggregator.getChampionStats env cid role).map ChampionStats.winRate
        = some (8/15) ∧
      (StatsAggregator.getChampionStats env cid role).map ChampionStats.tier
        = some "S") ∧
    (∀ (env : StatsAggregator.AggEnv) (cid : Int) (role : Role),
      (StatsAggregator.getSampleMatches env cid role).length = 29 →
      StatsAggregator.getChampionStats env cid role = none) := by
  constructor
  · intro env cid role perfs hlen hmap hwins
    have hplen : perfs.length = 30 := by rw [mapPerformances_length hmap, hlen]
    have hcalc : StatsAggregator.getChampionStats env cid role =
        StatsAggregator.calculateStats cid role
          (StatsAggregator.getSampleMatches env cid role) := by
      rw [StatsAggregator.getChampionStats]
      simp only [hlen, StatsAggregator.MIN_MATCHES]
      norm_num
    rw [hcalc, StatsAggregator.calculateStats, hmap]
    simp only [Option.map_some']
    refine ⟨?_, ?_⟩ <;>
      norm_num [hwins, hplen, StatsAggregator.calculateTier]
  · intro env cid role hlen
    rw [StatsAggregator.getChampionStats]
    simp [hlen, StatsAggregator.MIN_MATCHES]

/-- The 29-match environment's sample has length 29. -/
theorem statsEnv29_sample_len :
    (StatsAggregator.getSampleMatches statsEnv29 1 Role.top).length = 29 := by
  have hw : StatsAggregator.matchHasChampion sampleWin 1 Role.top = true := rfl
  have hl : StatsAggregator.matchHasChampion sampleLoss 1 Role.top = true := rfl
  rw [StatsAggregator.getSampleMatches, StatsAggregator.sampleCacheValue]
  have hacc : StatsAggregator.accumulateMatches statsEnv29 1 Role.top
      (statsEnv29.highEloPlayers.take 10) [] =
      List.replicate 15 sampleWin ++ List.replicate 14 sampleLoss := by
    rw [show statsEnv29.highEloPlayers.take 10 = ["p1"] from rfl,
      StatsAggregator.accumulateMatches]
    simp only [statsEnv29, List.filter_append, List.filter_replicate, hw, hl,
      if_pos]
    rw [if_neg (by simp [StatsAggregator.SAMPLE_SIZE]),
      StatsAggregator.accumulateMatches]
    simp
  rw [hacc, List.take_of_length_le (by simp [StatsAggregator.SAMPLE_SIZE])]
  simp

/-- Witness for the amended C2 at the concrete 30- and 29-match samples. -/
theorem stats_sample_amended_witness :
    ((StatsAggregator.getChampionStats statsEnv30 1 Role.top).map
        ChampionStats.winRate = some (8/15) ∧
      (StatsAggregator.getChampionStats statsEnv30 1 Role.top).map
        ChampionStats.tier = some "S") ∧
    StatsAggregator.getChampionStats statsEnv29 1 Role.top = none :=
  ⟨stats_sample_amended.1 statsEnv30 1 Role.top
      (List.replicate 16 perfWin ++ List.replicate 14 perfLoss)
      (by rw [statsEnv30_sample]; simp)
      (by rw [statsEnv30_sample]; exact statsEnv30_perfs)
      (by simp [List.filter_append, List.filter_replicate, perfWin, perfLoss]),
   stats_sample_amended.2 statsEnv29 1 Role.top statsEnv29_sample_len⟩

/-- Generic fact about the filter/score/sort/truncate pipeline shared by both
service variants: every output score keeps an id from the candidate filter,
hence outside the picked/banned id list. -/
theorem pipeline_exclusion {score : Int → Option RecommendationScore}
    {catalog pickedIds : List Int} {n : Nat} {r : RecommendationScore}
    (hid : ∀ cid r', score cid = some r' → r'.championId = cid)
    (hr : r ∈ (((catalog.filter fun id => !pickedIds.contains id).filterMap
      score).mergeSort fun a b => decide (b.totalScore ≤ a.totalScore)).take n) :
    r.championId ∉ pickedIds := by
  have h1 := mem_sorted_take hr
  obtain ⟨cid, hcid, hsc⟩ := List.mem_filterMap.mp h1
  obtain ⟨_, hfil⟩ := List.mem_filter.mp hcid
  rw [hid cid r hsc]
  simpa using hfil

/-- C6: for every draft state, no returned recommendation's champion id
appears in `myTeam`, `enemyTeam`, or `bannedChampions` — for both the
backend and the legacy service variants. -/
theorem recommendations_exclude_picked :
    (∀ (env : StatsEnv) (st : ChampionSelectState) (w : RecommendationWeights)
        (n : Nat) (l : List RecommendationScore) (r : RecommendationScore),
      Backend.getRecommendations env st w n = some l → r ∈ l →
      r.championId ∉ st.myTeam.map PlayerPick.championId ∧
      r.championId ∉ st.enemyTeam.map PlayerPick.championId ∧
      r.championId ∉ st.bannedChampions) ∧
    (∀ (env : StatsEnv) (st : ChampionSelectState) (w : RecommendationWeights)
        (n : Nat) (l : List RecommendationScore) (r : RecommendationScore),
      Legacy.getRecommendations env st w n = some l → r ∈ l →
      r.championId ∉ st.myTeam.map PlayerPick.championId ∧
      r.championId ∉ st.enemyTeam.map PlayerPick.championId ∧
      r.championId ∉ st.bannedChampions) := by
  constructor
  · intro env st w n l r hsome hr
    cases hrole : st.myRole with
    | none =>
      rw [Backend.getRecommendations, hrole] at hsome
      exact absurd hsome (by simp)
    | some role =>
      rw [Backend.getRecommendations, hrole] at hsome
      simp only [Option.some.injEq] at hsome
      subst hsome
      rw [batched_filterMap] at hr
      have hout := pipeline_exclusion
        (fun cid r' h => backend_score_championId h) hr
      simpa [List.mem_append, not_or] using hout
  · intro env st w n l r hsome hr
    cases hrole : st.myRole with
    | none =>
      rw [Legacy.getRecommendations, hrole] at hsome
      exact absurd hsome (by simp)
    | some role =>
      rw [Legacy.getRecommendations, hrole] at hsome
      simp only [Option.some.injEq] at hsome
      subst hsome
      rw [List.filterMap_map, Function.id_comp] at hr
      have hout := pipeline_exclusion
        (fun cid r' h => legacy_score_championId h) hr
      simpa [List.mem_append, not_or] using hout

/-- C7: for every draft state, weights and topN, the returned list is sorted
by `totalScore` descending and has at most `topN` entries — for both the
backend and the legacy service variants. -/
theorem recommendations_sorted_topN :
    (∀ (env : StatsEnv) (st : ChampionSelectState) (w : RecommendationWeights)
        (n : Nat) (l : List RecommendationScore),
      Backend.getRecommendations env st w n = some l →
      l.Pairwise (fun a b => b.totalScore ≤ a.totalScore) ∧ l.length ≤ n) ∧
    (∀ (env : StatsEnv) (st : ChampionSelectState) (w : RecommendationWeights)
        (n : Nat) (l : List RecommendationScore),
      Legacy.getRecommendations env st w n = some l →
      l.Pairwise (fun a b => b.totalScore ≤ a.totalScore) ∧ l.length ≤ n) := by
  constructor
  · intro env st w n l hsome
    cases hrole : st.myRole with
    | none =>
      rw [Backend.getRecommendations, hrole] at hsome
      exact absurd hsome (by simp)
    | some role =>
      rw [Backend.getRecommendations, hrole] at hsome
      simp only [Option.some.injEq] at hsome
      subst hsome
      refine ⟨sorted_take_pairwise _ n, ?_⟩
      rw [List.length_take]
      exact Nat.min_le_left _ _
  · intro env st w n l hsome
    cases hrole : st.myRole with
    | none =>
      rw [Legacy.getRecommendations, hrole] at hsome
      exact absurd hsome (by simp)
    | some role =>
      rw [Legacy.getRecommendations, hrole] at hsome
      simp only [Option.some.injEq] at hsome
      subst hsome
      refine ⟨sorted_take_pairwise _ n, ?_⟩
      rw [List.length_take]
      exact Nat.min_le_left _ _

/-- The slicing loop on a one-element list yields a single one-element
batch. -/
theorem sliceBatches_singleton {α : Type} (b : Nat) (a : α) :
    Backend.sliceBatches b [a] = [[a]] := by
  rw [Backend.sliceBatches]
  simp [Backend.sliceBatches]

/-- The backend win-rate sub-score is clamped into [0, 100]. -/
theorem backend_winRateScore_mem (stats : ChampionStats) :
    0 ≤ Backend.calculateWinRateScore stats ∧
      Backend.calculateWinRateScore stats ≤ 100 :=
  clamp_mem _

/-- The backend tier-based popularity sub-score lies in [0, 100]. -/
theorem backend_pickRateScore_mem (stats : ChampionStats) :
    0 ≤ Backend.calculatePickRateScore stats ∧
      Backend.calculatePickRateScore stats ≤ 100 := by
  rw [Backend.calculatePickRateScore]
  split_ifs <;> norm_num

/-- The backend counter sub-score lies in [0, 100]. -/
theorem backend_counterScore_mem (env : StatsEnv) (cid : Int)
    (st : ChampionSelectState) (role : Role) :
    0 ≤ Backend.calculateCounterScore env cid st role ∧
      Backend.calculateCounterScore env cid st role ≤ 100 := by
  simp only [Backend.calculateCounterScore]
  split_ifs <;> first | exact clamp_mem _ | norm_num

/-- The backend synergy sub-score lies in [0, 100]. -/
theorem backend_synergyScore_mem (env : StatsEnv) (cid : Int)
    (st : ChampionSelectState) (role : Role) :
    0 ≤ Backend.calculateSynergyScore env cid st role ∧
      Backend.calculateSynergyScore env cid st role ≤ 100 := by
  simp only [Backend.calculateSynergyScore]
  split_ifs <;> first | exact clamp_mem _ | norm_num

/-- With non-negative weights summing to 1, every successfully scored
candidate's weighted total lands in [0, 100]. -/
theorem backend_totalScore_mem (env : StatsEnv) (cid : Int)
    (st : ChampionSelectState) (w : RecommendationWeights)
    (r : RecommendationScore)
    (h : Backend.calculateChampionScore env cid st w = some r)
    (h1 : 0 ≤ w.winRate) (h2 : 0 ≤ w.pickRate) (h3 : 0 ≤ w.counterScore)
    (h4 : 0 ≤ w.synergyScore) (hsum : weightsSum w = 1) :
    0 ≤ r.totalScore ∧ r.totalScore ≤ 100 := by
  simp only [Backend.calculateChampionScore] at h
  split at h
  · exact absurd h (by simp)
  next role hrole =>
    split at h
    · exact absurd h (by simp)
    next stats hstats =>
      split at h
      · exact absurd h (by simp)
      next hm =>
        simp only [Option.some.injEq] at h
        have he : r.totalScore =
            Backend.calculateWinRateScore stats * w.winRate +
            Backend.calculatePickRateScore stats * w.pickRate +
            Backend.calculateCounterScore env cid st role * w.counterScore +
            Backend.calculateSynergyScore env cid st role * w.synergyScore := by
          rw [← h]
        have b1 := backend_winRateScore_mem stats
        have b2 := backend_pickRateScore_mem stats
        have b3 := backend_counterScore_mem env cid st role
        have b4 := backend_synergyScore_mem env cid st role
        rw [weightsSum] at hsum
        rw [he]
        constructor
        · have n1 := mul_nonneg b1.1 h1
          have n2 := mul_nonneg b2.1 h2
          have n3 := mul_nonneg b3.1 h3
          have n4 := mul_nonneg b4.1 h4
          linarith
        · have c1 := mul_le_mul_of_nonneg_right b1.2 h1
          have c2 := mul_le_mul_of_nonneg_right b2.2 h2
          have c3 := mul_le_mul_of_nonneg_right b3.2 h3
          have c4 := mul_le_mul_of_nonneg_right b4.2 h4
          linarith

/-- C5: all four backend sub-scores always land in [0, 100], and for every
non-negative weight vector summing to 1, every successfully scored
candidate's `totalScore` also lands in [0, 100]. -/
theorem sub_scores_in_range :
    (∀ stats : ChampionStats, 0 ≤ Backend.calculateWinRateScore stats ∧
      Backend.calculateWinRateScore stats ≤ 100) ∧
    (∀ stats : ChampionStats, 0 ≤ Backend.calculatePickRateScore stats ∧
      Backend.calculatePickRateScore stats ≤ 100) ∧
    (∀ (env : StatsEnv) (cid : Int) (st : ChampionSelectState) (role : Role),
      0 ≤ Backend.calculateCounterScore env cid st role ∧
      Backend.calculateCounterScore env cid st role ≤ 100) ∧
    (∀ (env : StatsEnv) (cid : Int) (st : ChampionSelectState) (role : Role),
      0 ≤ Backend.calculateSynergyScore env cid st role ∧
      Backend.calculateSynergyScore env cid st role ≤ 100) ∧
    (∀ (env : StatsEnv) (cid : Int) (st : ChampionSelectState)
        (w : RecommendationWeights) (r : RecommendationScore),
      Backend.calculateChampionScore env cid st w = some r →
      0 ≤ w.winRate → 0 ≤ w.pickRate → 0 ≤ w.counterScore →
      0 ≤ w.synergyScore → weightsSum w = 1 →
      0 ≤ r.totalScore ∧ r.totalScore ≤ 100) :=
  ⟨backend_winRateScore_mem, backend_pickRateScore_mem,
   backend_counterScore_mem, backend_synergyScore_mem, backend_totalScore_mem⟩

/-- Witness for C5 at concrete stats, draft state and the default weights. -/
theorem sub_scores_in_range_witness :
    (0 ≤ Backend.calculateWinRateScore demoStats ∧
      Backend.calculateWinRateScore demoStats ≤ 100) ∧
    (0 ≤ Backend.calculatePickRateScore demoStats ∧
      Backend.calculatePickRateScore demoStats ≤ 100) ∧
    (0 ≤ Backend.calculateCounterScore demoEnv 1 demoState Role.middle ∧
      Backend.calculateCounterScore demoEnv 1 demoState Role.middle ≤ 100) ∧
    (0 ≤ Backend.calculateSynergyScore demoEnv 1 demoState Role.middle ∧
      Backend.calculateSynergyScore demoEnv 1 demoState Role.middle ≤ 100) ∧
    (0 ≤ demoScore.totalScore ∧ demoScore.totalScore ≤ 100) :=
  ⟨sub_scores_in_range.1 demoStats,
   sub_scores_in_range.2.1 demoStats,
   sub_scores_in_range.2.2.1 demoEnv 1 demoState Role.middle,
   sub_scores_in_range.2.2.2.1 demoEnv 1 demoState Role.middle,
   sub_scores_in_range.2.2.2.2 demoEnv 1 demoState defaultWeights demoScore rfl
    (by norm_num [defaultWeights]) (by norm_num [defaultWeights])
    (by norm_num [defaultWeights]) (by norm_num [defaultWeights])
    (by norm_num [weightsSum, defaultWeights])⟩

/-- The backend pipeline on `demoEnv`/`demoState` returns exactly the one
surviving candidate's score. -/
theorem demoEval :
    Backend.getRecommendations demoEnv demoState defaultWeights 5 =
      some [demoScore] := by
  have h1 : Backend.getRecommendations demoEnv demoState defaultWeights 5 =
      some ((((Backend.sliceBatches Backend.batchSize [1]).map fun batch =>
        (batch.map fun championId =>
          Backend.calculateChampionScore demoEnv championId demoState
            defaultWeights).filterMap id).flatten.mergeSort fun a b =>
        decide (b.totalScore ≤ a.totalScore)).take 5) := rfl
  have h2 : (List.map (fun batch =>
      List.filterMap id (List.map (fun championId =>
        Backend.calculateChampionScore demoEnv championId demoState
          defaultWeights) batch)) [[1]]).flatten = [demoScore] := rfl
  rw [h1, sliceBatches_singleton, h2, List.mergeSort_singleton]
  rfl

/-- Witness for C6: the one recommendation computed for `demoEnv`/`demoState`
avoids the picked champion 2, the enemy champion 3, and the banned 4. -/
theorem recommendations_exclude_picked_witness :
    demoScore.championId ∉ demoState.myTeam.map PlayerPick.championId ∧
    demoScore.championId ∉ demoState.enemyTeam.map PlayerPick.championId ∧
    demoScore.championId ∉ demoState.bannedChampions :=
  recommendations_exclude_picked.1 demoEnv demoState defaultWeights 5
    [demoScore] demoScore demoEval (List.mem_singleton_self _)

/-- Witness for C7: that list is sorted by totalScore and within topN = 5. -/
theorem recommendations_sorted_topN_witness :
    List.Pairwise (fun a b : RecommendationScore =>
      b.totalScore ≤ a.totalScore) [demoScore] ∧
    ([demoScore] : List RecommendationScore).length ≤ 5 :=
  recommendations_sorted_topN.1 demoEnv demoState defaultWeights 5
    [demoScore] demoEval

/-- On a one-champion catalog with an empty draft state, the backend pipeline
returns exactly the score of that champion. -/
theorem backend_solo_pipeline (env : StatsEnv) (st : ChampionSelectState)
    (w : RecommendationWeights) (cid : Int) (name : String) (role : Role)
    (r : RecommendationScore)
    (hch : env.champions = [(cid, name)])
    (hst : st = ⟨some role, [], [], []⟩)
    (hsc : Backend.calculateChampionScore env cid st w = some r) :
    Backend.getRecommendations env st w 1 = some [r] := by
  subst hst
  simp only [Backend.getRecommendations, hch]
  simp [sliceBatches_singleton, Backend.batchSize, hsc,
    List.mergeSort_singleton]

/-- The backend pipeline on the spec example returns exactly `soloScore`. -/
theorem soloEval :
    Backend.getRecommendations soloEnv soloState defaultWeights 1 =
      some [soloScore] :=
  backend_solo_pipeline soloEnv soloState defaultWeights 1 "Ahri" Role.middle
    soloScore rfl rfl rfl

/-- Evaluation of the spec example's breakdown and total under the code's
formulas: winRateScore (0.523 − 0.45) × 200 = 14.6, tier-A popularity 60,
neutral 50s, and total 14.6×0.4 + 60×0.1 + 50×0.3 + 50×0.2 = 36.84. -/
theorem soloScore_fields :
    soloScore.breakdown.winRateScore = 73/5 ∧
    soloScore.breakdown.pickRateScore = 60 ∧
    soloScore.breakdown.counterScore = 50 ∧
    soloScore.breakdown.synergyScore = 50 ∧
    soloScore.totalScore = 921/25 := by
  have h1 : soloScore.breakdown.winRateScore =
      Backend.calculateWinRateScore demoStats := rfl
  have h2 : soloScore.breakdown.pickRateScore =
      Backend.calculatePickRateScore demoStats := rfl
  have h3 : soloScore.breakdown.counterScore =
      Backend.calculateCounterScore soloEnv 1 soloState Role.middle := rfl
  have h4 : soloScore.breakdown.synergyScore =
      Backend.calculateSynergyScore soloEnv 1 soloState Role.middle := rfl
  have h5 : soloScore.totalScore =
      Backend.calculateWinRateScore demoStats * defaultWeights.winRate +
      Backend.calculatePickRateScore demoStats * defaultWeights.pickRate +
      Backend.calculateCounterScore soloEnv 1 soloState Role.middle *
        defaultWeights.counterScore +
      Backend.calculateSynergyScore soloEnv 1 soloState Role.middle *
        defaultWeights.synergyScore := rfl
  have e1 : Backend.calculateWinRateScore demoStats = 73/5 := by
    norm_num [Backend.calculateWinRateScore, demoStats, min_def, max_def]
  have e2 : Backend.calculatePickRateScore demoStats = 60 := by
    simp [Backend.calculatePickRateScore, demoStats]
  have e3 : Backend.calculateCounterScore soloEnv 1 soloState Role.middle
      = 50 := by
    simp [Backend.calculateCounterScore, soloState]
  have e4 : Backend.calculateSynergyScore soloEnv 1 soloState Role.middle
      = 50 := by
    simp [Backend.calculateSynergyScore, soloState]
  refine ⟨by rw [h1, e1], by rw [h2, e2], by rw [h3, e3], by rw [h4, e4], ?_⟩
  rw [h5, e1, e2, e3, e4]
  norm_num [defaultWeights]

/-- C1 counterexample: on the spec's end-to-end example (single candidate,
winRate 0.523, tier A, empty draft, default weights, topN 1), the code
returns winRateScore = 73/5 = 14.6 and totalScore = 921/25 = 36.84 — not the
claimed ≈ 73 and ≈ 60.2 (both are off by far more than any rounding
tolerance). -/
theorem engine_example_counterexample :
    (Backend.getRecommendations soloEnv soloState defaultWeights 1).map
      (List.map fun r => (r.breakdown.winRateScore, r.totalScore)) =
      some [(73/5, 921/25)] ∧
    |((73:ℚ)/5) - 73| > 10 ∧ |((921:ℚ)/25) - 60.2| > 10 := by
  refine ⟨?_,
    by rw [abs_of_neg (by norm_num : ((73:ℚ)/5) - 73 < 0)]; norm_num,
    by rw [abs_of_neg (by norm_num : ((921:ℚ)/25) - 60.2 < 0)]; norm_num⟩
  rw [soloEval]
  simp only [Option.map_some', List.map_cons, List.map_nil,
    soloScore_fields.1, soloScore_fields.2.2.2.2]

/-- C1 amended: in the end-to-end scenario (one candidate with winRate 0.523,
tier A, a sufficient sample, no matchup/synergy data, empty draft state,
default weights, topN 1), `getRecommendations` returns that candidate with
counterScore = 50, synergyScore = 50, tier-based popularityScore = 60,
winRateScore = (0.523 − 0.45) × 200 = 14.6 and totalScore =
14.6×0.4 + 60×0.1 + 50×0.3 + 50×0.2 = 36.84. -/
theorem engine_example_amended (cid : Int) (name : String) (role : Role)
    (sf : Int → Role → Option ChampionStats) (stats : ChampionStats)
    (hsf : sf cid role = some stats) (hwr : stats.winRate = 0.523)
    (htier : stats.tier = "A") (hm : configMinMatches ≤ stats.matches) :
    (Backend.getRecommendations ⟨[(cid, name)], sf, fun _ _ _ => none,
        fun _ _ _ => none⟩ ⟨some role, [], [], []⟩ defaultWeights 1).map
      (List.map fun r => (r.breakdown.winRateScore, r.breakdown.pickRateScore,
        r.breakdown.counterScore, r.breakdown.synergyScore, r.totalScore)) =
      some [(73/5, 60, 50, 50, 921/25)] := by
  cases hsc : Backend.calculateChampionScore ⟨[(cid, name)], sf,
      fun _ _ _ => none, fun _ _ _ => none⟩ cid ⟨some role, [], [], []⟩
      defaultWeights with
  | none =>
    simp only [Backend.calculateChampionScore, hsf] at hsc
    rw [if_neg (by omega)] at hsc
    exact absurd hsc (by simp)
  | some r =>
    rw [backend_solo_pipeline _ _ _ cid name role r rfl rfl hsc]
    simp only [Backend.calculateChampionScore, hsf] at hsc
    rw [if_neg (by omega)] at hsc
    simp only [Option.some.injEq] at hsc
    have e1 : Backend.calculateWinRateScore stats = 73/5 := by
      norm_num [Backend.calculateWinRateScore, hwr, min_def, max_def]
    have e2 : Backend.calculatePickRateScore stats = 60 := by
      simp [Backend.calculatePickRateScore, htier]
    have e3 : Backend.calculateCounterScore ⟨[(cid, name)], sf,
        fun _ _ _ => none, fun _ _ _ => none⟩ cid
        ⟨some role, [], [], []⟩ role = 50 := by
      simp [Backend.calculateCounterScore]
    have e4 : Backend.calculateSynergyScore ⟨[(cid, name)], sf,
        fun _ _ _ => none, fun _ _ _ => none⟩ cid
        ⟨some role, [], [], []⟩ role = 50 := by
      simp [Backend.calculateSynergyScore]
    rw [← hsc]
    simp only [Option.map_some', List.map_cons, List.map_nil, e1, e2, e3, e4]
    norm_num [defaultWeights]

/-- Witness for the amended C1 at the concrete single-candidate catalog. -/
theorem engine_example_amended_witness :
    (Backend.getRecommendations ⟨[(1, "Ahri")], soloEnv.championStats,
        fun _ _ _ => none, fun _ _ _ => none⟩ ⟨some Role.middle, [], [], []⟩
        defaultWeights 1).map
      (List.map fun r => (r.breakdown.winRateScore, r.breakdown.pickRateScore,
        r.breakdown.counterScore, r.breakdown.synergyScore, r.totalScore)) =
      some [(73/5, 60, 50, 50, 921/25)] :=
  engine_example_amended 1 "Ahri" Role.middle soloEnv.championStats demoStats
    rfl rfl rfl (by norm_num [demoStats, configMinMatches])

end OPA
